import Mathlib

/-!
Shallow embedding of the `testing` unit-test framework
(src/test.hpp, src/verify.hpp, src/asserts.hpp, src/concepts.hpp).

Modelling conventions:
* C++ exceptions are modelled by the inductive type `testing.Exc`; a function
  that can throw returns `Except Exc _`.  The relevant exception classes are
  `TestFailure` (test.hpp), `AssertFailure` (asserts.hpp), `std::invalid_argument`
  (thrown by `detail::verify` and the helpers of verify.hpp), an arbitrary other
  exception derived from `std::exception`, and an exception not derived from
  `std::exception` (only matched by a `catch (...)` clause).  The extra
  constructor `ub` marks a point where the C++ program's behaviour is undefined
  (null-pointer arithmetic in `test_all`); it is not an exception and no catch
  clause matches it.
* A C string pointer (`const char *`) is modelled as `Option (List Char)`:
  `none` is a null pointer, `some cs` is a pointer whose remaining characters up
  to the terminating NUL are `cs`.  A pointer returned by `detail::strchr` is
  represented by the offset of the found character.
* Source-location tags and the `fmt` quoting around interpolated values are
  cosmetic (spec section 6) and are elided from the modelled message strings.
* Test bodies are zero-argument callables returning `void`; invoking one is
  modelled by its outcome, a value of `Except Exc Unit`.
* The aggregator `TestSuite` is passed by reference in C++; functions that
  mutate it here return the updated copy, and runner functions return the state
  of the aggregator at the moment they return or an exception escapes them.
-/

namespace testing

/-- The exception kinds that can cross the boundaries modelled here. -/
inductive Exc : Type
  /-- `testing::TestFailure` (test.hpp line 16), derived from `std::logic_error`. -/
  | testFailure (msg : String)
  /-- `testing::detail::AssertFailure` (asserts.hpp line 27), derived from
  `std::logic_error`; not derived from `TestFailure`. -/
  | assertFailure (msg : String)
  /-- `std::invalid_argument`, thrown by `detail::verify` (test.hpp line 60) and
  by the verification helpers of verify.hpp. -/
  | invalidArgument (msg : String)
  /-- any other exception derived from `std::exception`. -/
  | stdException (msg : String)
  /-- an exception not derived from `std::exception`; only `catch (...)` sees it. -/
  | unknownExc
  /-- undefined behaviour (null-pointer arithmetic); not an exception, nothing
  catches it. -/
  | ub
  deriving DecidableEq

/-- Whether a `catch (const TestFailure &)` clause matches the exception: it
matches `TestFailure` and classes derived from it, and nothing in the sources
derives from `TestFailure`. -/
def Exc.isTestFailure : Exc → Bool
  | .testFailure _ => true
  | _ => false

/-- Whether a `catch (const std::exception &)` clause matches the exception. -/
def Exc.isStdException : Exc → Bool
  | .testFailure _ => true
  | .assertFailure _ => true
  | .invalidArgument _ => true
  | .stdException _ => true
  | .unknownExc => false
  | .ub => false

/-- `e.what()` for exceptions derived from `std::exception`. -/
def Exc.what : Exc → String
  | .testFailure m => m
  | .assertFailure m => m
  | .invalidArgument m => m
  | .stdException m => m
  | .unknownExc => ""
  | .ub => ""

/-- The outcome of invoking a zero-argument test body. -/
abbrev TestCase := Except Exc Unit

namespace detail

/-- `detail::verify` (test.hpp lines 56-64): throws `std::invalid_argument` when
the condition is false (the source-location prefix of the message is elided). -/
def verify (condition : Bool) (message : String) : Except Exc Unit :=
  if !condition then Except.error (Exc.invalidArgument message) else Except.ok ()

/-- `detail::strlen` (test.hpp lines 66-73): verifies the pointer is non-null
(raising `std::invalid_argument` otherwise) and counts characters up to NUL. -/
def strlen (str : Option (List Char)) : Except Exc Nat :=
  match verify str.isSome "" with
  | Except.error e => Except.error e
  | Except.ok _ => Except.ok ((str.getD []).length)

/-- `detail::strchr` (test.hpp lines 75-86) restricted to a non-NUL search
character: scans until NUL or the character; the returned pointer is
represented by the offset of the found character, `none` standing for the
null pointer returned when the character is absent.  The null-pointer input
case is handled at the call sites together with the pointer arithmetic. -/
def strchr : List Char → Char → Option Nat
  | [], _ => none
  | x :: xs, c => if x = c then some 0 else (strchr xs c).map (· + 1)

/-- `detail::isspace` (test.hpp lines 132-134). -/
def isspace (c : Char) : Bool :=
  c = ' ' || c = '\t' || c = '\n' || c = '\r'

/-- `detail::skip_whitespace_and_ampersand` (test.hpp lines 136-146): advances
the pointer past leading whitespace and ampersand characters; null in, null out. -/
def skip_whitespace_and_ampersand : Option (List Char) → Option (List Char)
  | none => none
  | some s => some (s.dropWhile (fun c => isspace c || c = '&'))

/-- `detail::fail` of asserts.hpp (lines 31-36): wraps the message into an
`AssertFailure` (the source-location prefix is elided). -/
def fail (str : String) : Exc :=
  Exc.assertFailure str

end detail

/-- `testing::TestSuite` (test.hpp lines 205-231): the runtime aggregator.
The counters are C++ `int`s that start at zero and are only ever incremented. -/
structure TestSuite : Type where
  total : Int := 0
  failed : Int := 0
  failed_testnames : List String := []
  deriving DecidableEq

/-- A default-constructed `TestSuite` (test.hpp line 206). -/
def freshSuite : TestSuite := ⟨0, 0, []⟩

/-- `TestSuite::add_failed_test` (test.hpp line 213). -/
def TestSuite.add_failed_test (s : TestSuite) (sv : String) : TestSuite :=
  { s with failed_testnames := s.failed_testnames ++ [sv] }

/-- `TestSuite::status` (test.hpp line 215). -/
def TestSuite.status (s : TestSuite) : Int := s.failed

/-- `TestSuite::increment_total` (test.hpp line 225). -/
def TestSuite.increment_total (s : TestSuite) : TestSuite :=
  { s with total := s.total + 1 }

/-- `TestSuite::increment_failed` (test.hpp line 226). -/
def TestSuite.increment_failed (s : TestSuite) : TestSuite :=
  { s with failed := s.failed + 1 }

/-- Modelled from the spec: `report()` is required of aggregators by the
`testsuite` concept (concepts.hpp line 42) but no definition of it exists under
src (the runtime `TestSuite` prints its summary only in its destructor,
test.hpp lines 217-223, and `ConstexprTestSuite` has no report operation).
Per the spec, `report()` produces a human-readable summary from the current
counters, is safe to call multiple times, and does not reset or modify state. -/
def TestSuite.report (s : TestSuite) : String × TestSuite :=
  ("SUMMARY: Ran " ++ toString s.total ++ " tests. " ++ toString s.failed ++
    " failed.", s)

/-- `testing::test_single` (test.hpp lines 233-256): invokes the body, catches
exactly `TestFailure`, prints (elided), then records the outcome into the
aggregator.  Any other exception escapes before `increment_total` is reached;
the returned aggregator is its state at that moment. -/
def test_single (test_suite : TestSuite) (fn_name : String) (fn : TestCase) :
    TestSuite × Except Exc Bool :=
  match fn with
  | Except.ok _ =>
    (test_suite.increment_total, Except.ok true)
  | Except.error e =>
    if e.isTestFailure then
      (((test_suite.increment_total).increment_failed).add_failed_test fn_name,
        Except.ok false)
    else
      (test_suite, Except.error e)

/-- `testing::test_all` (test.hpp lines 258-277): skips leading whitespace and
ampersands, splits the head name at the next comma, runs the head test, recurses
on the rest, and sums `static_cast<int>(single_passed)` over the batch.  When
another callable remains but `strchr` finds no comma, `pcomma` is null and
`pcomma - fn_names` is undefined behaviour; when the whole name pointer is null,
`strchr` returns null, `nullptr - nullptr` is 0 (so the head name is the empty
view) and the recursive call advances a null pointer: undefined behaviour. -/
def test_all (test_suite : TestSuite) (fn_names : Option (List Char))
    (fn : TestCase) (rest : List TestCase) : TestSuite × Except Exc Int :=
  match rest with
  | r :: rs =>
    match detail.skip_whitespace_and_ampersand fn_names with
    | none =>
      (match test_single test_suite "" fn with
       | (s1, Except.ok _) => (s1, Except.error Exc.ub)
       | (s1, Except.error e) => (s1, Except.error e))
    | some cs =>
      match detail.strchr cs ',' with
      | none => (test_suite, Except.error Exc.ub)
      | some i =>
        match test_single test_suite (String.mk (cs.take i)) fn with
        | (s1, Except.error e) => (s1, Except.error e)
        | (s1, Except.ok single_passed) =>
          match test_all s1 (some (cs.drop (i + 1))) r rs with
          | (s2, Except.error e) => (s2, Except.error e)
          | (s2, Except.ok rest_passed) =>
            (s2, Except.ok ((if single_passed then 1 else 0) + rest_passed))
  | [] =>
    match detail.strlen (detail.skip_whitespace_and_ampersand fn_names) with
    | Except.error e => (test_suite, Except.error e)
    | Except.ok len =>
      match test_single test_suite
          (String.mk (((detail.skip_whitespace_and_ampersand fn_names).getD
            []).take len)) fn with
      | (s1, Except.ok single_passed) =>
        (s1, Except.ok (if single_passed then 1 else 0))
      | (s1, Except.error e) => (s1, Except.error e)

/-- `testing::test_single_with_fixture` (test.hpp lines 279-308): constructs a
fresh fixture (its default-constructed value is `dflt`), invokes the bound
method on it, catches exactly `TestFailure`, then records the outcome. -/
def test_single_with_fixture {Fix : Type} (dflt : Fix) (test_suite : TestSuite)
    (fn_name : String) (fn : Fix → Except Exc Unit) :
    TestSuite × Except Exc Bool :=
  match fn dflt with
  | Except.ok _ =>
    (test_suite.increment_total, Except.ok true)
  | Except.error e =>
    if e.isTestFailure then
      (((test_suite.increment_total).increment_failed).add_failed_test fn_name,
        Except.ok false)
    else
      (test_suite, Except.error e)

/-- `testing::test_all_with_fixture` (test.hpp lines 310-335): same control
flow as `test_all` with a fresh fixture per test; the batch result is
`rest_fails + static_cast<int>(single_passed)`. -/
def test_all_with_fixture {Fix : Type} (dflt : Fix) (test_suite : TestSuite)
    (fn_names : Option (List Char)) (fn : Fix → Except Exc Unit)
    (rest : List (Fix → Except Exc Unit)) : TestSuite × Except Exc Int :=
  match rest with
  | r :: rs =>
    match detail.skip_whitespace_and_ampersand fn_names with
    | none =>
      (match test_single_with_fixture dflt test_suite "" fn with
       | (s1, Except.ok _) => (s1, Except.error Exc.ub)
       | (s1, Except.error e) => (s1, Except.error e))
    | some cs =>
      match detail.strchr cs ',' with
      | none => (test_suite, Except.error Exc.ub)
      | some i =>
        match test_single_with_fixture dflt test_suite (String.mk (cs.take i))
            fn with
        | (s1, Except.error e) => (s1, Except.error e)
        | (s1, Except.ok single_passed) =>
          match test_all_with_fixture dflt s1 (some (cs.drop (i + 1))) r rs with
          | (s2, Except.error e) => (s2, Except.error e)
          | (s2, Except.ok rest_fails) =>
            (s2, Except.ok (rest_fails + (if single_passed then 1 else 0)))
  | [] =>
    match detail.strlen (detail.skip_whitespace_and_ampersand fn_names) with
    | Except.error e => (test_suite, Except.error e)
    | Except.ok len =>
      match test_single_with_fixture dflt test_suite
          (String.mk (((detail.skip_whitespace_and_ampersand fn_names).getD
            []).take len)) fn with
      | (s1, Except.ok single_passed) =>
        (s1, Except.ok (if single_passed then 1 else 0))
      | (s1, Except.error e) => (s1, Except.error e)

/-- `testing::Verify` (verify.hpp lines 8-11): an immutable carrier for an
expected value. -/
structure Verify (α : Type) : Type where
  val : α

/-- `testing::v` (verify.hpp lines 73-81): returns `actual` when it equals
`expected`, otherwise throws `std::invalid_argument`.  The heterogeneous
`equality_comparable_with` constraint is narrowed to a single type. -/
def v {α : Type} [DecidableEq α] (actual expected : α) : Except Exc α :=
  if actual ≠ expected then Except.error (Exc.invalidArgument "Lhs != rhs")
  else Except.ok actual

/-- `testing::vn` (verify.hpp lines 83-91): the inequality counterpart of `v`. -/
def vn {α : Type} [DecidableEq α] (actual expected : α) : Except Exc α :=
  if actual = expected then Except.error (Exc.invalidArgument "Lhs != rhs")
  else Except.ok actual

/-- `operator&&(Other &&, const Verify<T> &)` (verify.hpp lines 30-41). -/
def opAnd {α : Type} [DecidableEq α] (actual : α) (expected : Verify α) :
    Except Exc α :=
  if actual ≠ expected.val then Except.error (Exc.invalidArgument "Lhs != rhs")
  else Except.ok actual

/-- `operator&&(const Verify<T> &, Other &&)` (verify.hpp lines 43-51). -/
def opAndRev {α : Type} [DecidableEq α] (expected : Verify α) (actual : α) :
    Except Exc α :=
  if actual ≠ expected.val then Except.error (Exc.invalidArgument "Lhs != rhs")
  else Except.ok actual

/-- `operator^(const Verify<T> &, Other &&)` (verify.hpp lines 53-61). -/
def opXor {α : Type} [DecidableEq α] (expected : Verify α) (actual : α) :
    Except Exc α :=
  if actual = expected.val then Except.error (Exc.invalidArgument "Lhs != rhs")
  else Except.ok actual

/-- `operator^(Other &&, const Verify<T> &)` (verify.hpp lines 63-71). -/
def opXorRev {α : Type} [DecidableEq α] (actual : α) (expected : Verify α) :
    Except Exc α :=
  if actual = expected.val then Except.error (Exc.invalidArgument "Lhs != rhs")
  else Except.ok actual

/-- The message built by the first catch clause of `assert_nothrow`
(asserts.hpp lines 96-101); the `fmt` quoting is elided. -/
def wrapStdMsg (args_str what : String) : String :=
  "ASSERT: Unexpected std::exception thrown with arguments " ++ args_str ++
    ". what(): " ++ what

/-- The message built by the `catch (...)` clause of `assert_nothrow`
(asserts.hpp lines 102-109). -/
def wrapUnknownMsg (args_str : String) : String :=
  "ASSERT: Unexpected unknown exception thrown with arguments " ++ args_str

/-- `testing::assert_nothrow` (asserts.hpp lines 89-110): invokes the callable
(the outcome of `std::invoke(fn.fn, args...)` is the argument `invocation`,
whose value, if any, is discarded: the function returns `void`); a thrown
`std::exception` of any kind — the framework's own failure types included — is
re-wrapped by `detail::fail` into a fresh `AssertFailure`, and any other
exception is re-wrapped via the `catch (...)` clause. -/
def assert_nothrow {β : Type} (args_str : String)
    (invocation : Except Exc β) : Except Exc Unit :=
  match invocation with
  | Except.ok _ => Except.ok ()
  | Except.error e =>
    if e.isStdException then
      Except.error (detail.fail (wrapStdMsg args_str e.what))
    else
      match e with
      | Exc.unknownExc => Except.error (detail.fail (wrapUnknownMsg args_str))
      | e => Except.error e

/-- A driver that runs a batch of named tests through `test_single` in order
against one aggregator, stopping when an uncaught exception escapes a test
(the name resolution of `test_all` is elided: names are given directly,
as the `TEST_ALL` macro's stringification produces them). -/
def runBatch (s : TestSuite) : List (String × TestCase) →
    TestSuite × Except Exc Unit
  | [] => (s, Except.ok ())
  | (n, fn) :: rest =>
    match test_single s n fn with
    | (s1, Except.ok _) => runBatch s1 rest
    | (s1, Except.error e) => (s1, Except.error e)

/-- Whether a test body raises the framework's Failure Signal. -/
def failsWithSignal : TestCase → Bool
  | Except.error (Exc.testFailure _) => true
  | _ => false

/-- Whether a test body either returns normally or raises the framework's
Failure Signal (so that the Runner itself never has to propagate). -/
def okOrSignal : TestCase → Bool
  | Except.ok _ => true
  | Except.error (Exc.testFailure _) => true
  | _ => false

/-- A C++ type as seen by the template machinery of `detail::to_string`
(test.hpp lines 112-123, asserts.hpp lines 14-25): a non-reference object type
(with flags for being an enumeration type and for having a stream
`operator<<`), an lvalue reference, or an rvalue reference. -/
inductive CppTy : Type
  | obj (isEnum : Bool) (streamable : Bool)
  | lref (t : CppTy)
  | rref (t : CppTy)

/-- `std::is_enum_v`: true only for non-reference enumeration types; a
reference type is never an enumeration type. -/
def is_enum_v : CppTy → Bool
  | CppTy.obj e _ => e
  | _ => false

/-- Forming `T&&` from a (possibly reference) type `T`, with C++ reference
collapsing: `U& &&` is `U&`, `U&& &&` is `U&&`, `U &&` is `U&&`. -/
def add_rref : CppTy → CppTy
  | CppTy.lref t => CppTy.lref t
  | CppTy.rref t => CppTy.rref t
  | t => CppTy.rref t

/-- The `printable` concept (concepts.hpp lines 8-11, test.hpp lines 21-24):
whether `std::cout << std::forward<T>(t)` compiles; streaming sees through
references.  An enumeration type is streamable exactly when it is unscoped
(integral promotion applies); a scoped enumeration is not. -/
def printable : CppTy → Bool
  | CppTy.obj _ s => s
  | CppTy.lref t => printable t
  | CppTy.rref t => printable t

/-- The value category of the argument at a call site of `to_string`. -/
inductive ValueCat : Type
  | lvalue
  | rvalue

/-- Template argument deduction for `to_string(T &&val)`: an lvalue argument of
object type `U` deduces `T = U&`, an rvalue deduces `T = U`. -/
def deduce (u : CppTy) : ValueCat → CppTy
  | ValueCat.lvalue => CppTy.lref u
  | ValueCat.rvalue => u

/-- A runtime value passed to `to_string`: the text streaming it would produce
(when it is streamable), and its underlying integral value when it is of
enumeration type. -/
structure CppVal : Type where
  stream_text : String
  underlying : Int

/-- `detail::to_string` (test.hpp lines 112-123 and, identically, asserts.hpp
lines 14-25), instantiated at the deduced type `T`: the first branch tests the
concept `printable<T>`, the second tests `std::is_enum_v<T &&>` and returns
`std::to_string` of the value cast to the underlying type, and the fallback
returns the literal unprintable marker. -/
def detail.to_string (T : CppTy) (val : CppVal) : String :=
  if printable T then val.stream_text
  else if is_enum_v (add_rref T) then toString val.underlying
  else "<UNPRINTABLE>"

end testing


open testing

/-- Claim C1: at the failing input — a batch of one test that raises no Failure
Signal, run against a fresh aggregator — `test_all` returns 1 while the
aggregator records 0 failed tests, and `test_all_with_fixture` does the same:
the batch runners return the count of passed tests, not the count of failed
tests that the claim states. -/
theorem test_all_returns_passed_count_at_failing_input :
    test_all freshSuite (some ['a']) (Except.ok ()) [] =
      (⟨1, 0, []⟩, Except.ok 1) ∧
    test_all_with_fixture () freshSuite (some ['a'])
      (fun _ => Except.ok ()) [] = (⟨1, 0, []⟩, Except.ok 1) :=
  ⟨rfl, rfl⟩

/-- Claim C3: only the framework's own `TestFailure` marks a test failed:
`test_single` records a failure exactly for a body raising `TestFailure`, and a
body raising an exception of any other kind propagates it out of the Runner
with nothing recorded, never converted into a recorded failed test. -/
theorem test_single_catches_exactly_TestFailure (s : TestSuite) (n : String) :
    (∀ m, test_single s n (Except.error (Exc.testFailure m)) =
      (((s.increment_total).increment_failed).add_failed_test n,
        Except.ok false)) ∧
    (∀ e : Exc, e.isTestFailure = false →
      test_single s n (Except.error e) = (s, Except.error e)) := by
  constructor
  · intro m; rfl
  · intro e he; simp [test_single, he]

/-- Witness for C3 at a concrete input: an `std::invalid_argument` body signal
is not a `TestFailure` and passes through `test_single` untouched. -/
theorem test_single_catches_exactly_TestFailure_witness :
    test_single freshSuite "t" (Except.error (Exc.invalidArgument "x")) =
      (freshSuite, Except.error (Exc.invalidArgument "x")) :=
  (test_single_catches_exactly_TestFailure freshSuite "t").2
    (Exc.invalidArgument "x") rfl

/-- Claim C10: a body raising any exception other than `TestFailure` leaves the
aggregator entirely unchanged — total not incremented, failed not incremented,
no name appended — and the exception propagates out of `test_single`. -/
theorem test_single_foreign_exception_leaves_suite_unchanged
    (s : TestSuite) (n : String) (e : Exc) (h : e.isTestFailure = false) :
    (test_single s n (Except.error e)).1.total = s.total ∧
    (test_single s n (Except.error e)).1.failed = s.failed ∧
    (test_single s n (Except.error e)).1.failed_testnames =
      s.failed_testnames ∧
    (test_single s n (Except.error e)).2 = Except.error e := by
  simp [test_single, h]

/-- Witness for C10 at a concrete input: a plain `std::exception` propagates
and the fresh aggregator stays fresh. -/
theorem test_single_foreign_exception_leaves_suite_unchanged_witness :
    (test_single freshSuite "t" (Except.error (Exc.stdException "boom"))).1.total
        = freshSuite.total ∧
    (test_single freshSuite "t"
        (Except.error (Exc.stdException "boom"))).1.failed = freshSuite.failed ∧
    (test_single freshSuite "t"
        (Except.error (Exc.stdException "boom"))).1.failed_testnames =
      freshSuite.failed_testnames ∧
    (test_single freshSuite "t" (Except.error (Exc.stdException "boom"))).2 =
      Except.error (Exc.stdException "boom") :=
  test_single_foreign_exception_leaves_suite_unchanged freshSuite "t"
    (Exc.stdException "boom") rfl

/-- Claim C8: `report()` does not modify the aggregator, and calling it twice
without intervening mutations produces the same summary — in particular the
same total and failed counts — both times. -/
theorem report_idempotent_state_unchanged (s : TestSuite) :
    (s.report).2 = s ∧
    ((s.report).2.report).1 = (s.report).1 ∧
    ((s.report).2).total = s.total ∧
    ((s.report).2).failed = s.failed :=
  ⟨rfl, rfl, rfl, rfl⟩

/-- Claim C5: `assert_nothrow` raises iff the invocation raises; but at the
failing input — a callable returning 2 without raising — it returns `()` (the
function is declared `void`), discarding the callable's result instead of
returning it unchanged as the claim states. -/
theorem assert_nothrow_discards_result :
    assert_nothrow "1, " (Except.ok (2 : Int)) = Except.ok () ∧
    (∀ (r : Except Exc Int) (a : String),
      (assert_nothrow a r = Except.ok ()) ↔ ∃ y, r = Except.ok y) := by
  refine ⟨rfl, fun r a => ?_⟩
  cases r with
  | ok y => simp [assert_nothrow]
  | error e =>
    constructor
    · intro h
      cases e <;> simp_all [assert_nothrow, Exc.isStdException]
    · rintro ⟨y, hy⟩
      exact absurd hy (by simp)

/-- Claim C4: counterexample — a callable raising the assertion library's own
`AssertFailure "x"` inside `assert_nothrow` does not propagate it unchanged:
what escapes is a fresh `AssertFailure` carrying the wrapping message, which is
not "x". -/
theorem assert_nothrow_rewraps_cex :
    assert_nothrow (β := Unit) "" (Except.error (Exc.assertFailure "x")) =
      Except.error (Exc.assertFailure (wrapStdMsg "" "x")) ∧
    (wrapStdMsg "" "x" == "x") = false :=
  ⟨rfl, by decide⟩

/-- Claim C4 (amended): `assert_nothrow` catches the framework's own Failure
Signal like any `std::exception` and re-raises a fresh `AssertFailure` wrapping
its message; the identical signal never propagates — the wrapped message always
differs from the original — though what escapes is still the assertion
library's Failure Signal type. -/
theorem assert_nothrow_rewraps_failure_signal (a m : String) :
    assert_nothrow (β := Unit) a (Except.error (Exc.assertFailure m)) =
      Except.error (Exc.assertFailure (wrapStdMsg a m)) ∧
    (wrapStdMsg a m).length =
      m.length + a.length +
        "ASSERT: Unexpected std::exception thrown with arguments ".length +
        ". what(): ".length := by
  refine ⟨rfl, ?_⟩
  simp [wrapStdMsg, String.length_append]
  omega

/-- Claim C9: at the failing input — a scoped enumeration value with no stream
`operator<<` and underlying value 7 — `detail::to_string` renders the
unprintable marker whether the value is passed as an lvalue or an rvalue,
because `std::is_enum_v<T &&>` tests a reference type and so never selects the
enumeration branch; the claim says it would render the underlying numeric
representation "7".  Streamable values are still converted faithfully. -/
theorem to_string_scoped_enum_unprintable :
    (∀ cat, detail.to_string (deduce (CppTy.obj true false) cat) ⟨"", 7⟩ =
      "<UNPRINTABLE>") ∧
    (∀ cat val, detail.to_string (deduce (CppTy.obj false true) cat) val =
      val.stream_text) := by
  refine ⟨fun cat => ?_, fun cat val => ?_⟩ <;> cases cat <;> rfl

/-- Characters that neither the whitespace-and-ampersand skipper consumes nor
`strchr` mistakes for the comma separator. -/
def plainChar (c : Char) : Bool :=
  !(testing.detail.isspace c) && !(c == '&') && !(c == ',')

theorem dropWhile_skip_eq_self :
    ∀ l : List Char, (∀ c ∈ l.head?, (detail.isspace c || c = '&') = false) →
      l.dropWhile (fun c => detail.isspace c || c = '&') = l := by
  intro l h
  cases l with
  | nil => rfl
  | cons x xs =>
    have hx : (detail.isspace x || x = '&') = false := h x rfl
    simp [List.dropWhile, hx]

theorem plainChar_not_skipped {c : Char} (h : plainChar c = true) :
    (detail.isspace c || c = '&') = false := by
  simp only [plainChar, Bool.and_eq_true, Bool.not_eq_true', beq_eq_false_iff_ne]
    at h
  simp [h.1.1, h.1.2]

theorem strchr_not_mem (c : Char) :
    ∀ l : List Char, (∀ x ∈ l, (x == c) = false) →
      detail.strchr l c = none := by
  intro l
  induction l with
  | nil => intro _; rfl
  | cons x xs ih =>
    intro h
    have hx : x ≠ c := by simpa using h x (by simp)
    simp [detail.strchr, hx, ih (fun y hy => h y (by simp [hy]))]

theorem strchr_append_comma (b : List Char) :
    ∀ a : List Char, (∀ x ∈ a, (x == ',') = false) →
      detail.strchr (a ++ ',' :: b) ',' = some a.length := by
  intro a
  induction a with
  | nil => intro _; simp [detail.strchr]
  | cons x xs ih =>
    intro h
    have hx : x ≠ ',' := by simpa using h x (by simp)
    simp [detail.strchr, hx, ih (fun y hy => h y (by simp [hy]))]

theorem take_append_comma (b : List Char) :
    ∀ a : List Char, (a ++ ',' :: b).take a.length = a := by
  intro a
  induction a with
  | nil => simp
  | cons x xs ih => simp

theorem drop_append_comma (b : List Char) :
    ∀ a : List Char, (a ++ ',' :: b).drop (a.length + 1) = b := by
  intro a
  induction a with
  | nil => simp
  | cons x xs ih => simp

theorem test_all_no_comma_is_ub (s : TestSuite) (cs : List Char)
    (fn r : TestCase) (rs : List TestCase)
    (h1 : detail.skip_whitespace_and_ampersand (some cs) = some cs)
    (h2 : detail.strchr cs ',' = none) :
    test_all s (some cs) fn (r :: rs) = (s, Except.error Exc.ub) := by
  simp only [test_all, h1, h2]


theorem skip_some_eq_self (cs : List Char)
    (h : ∀ c ∈ cs.head?, (detail.isspace c || c = '&') = false) :
    detail.skip_whitespace_and_ampersand (some cs) = some cs := by
  simp only [detail.skip_whitespace_and_ampersand]
  rw [dropWhile_skip_eq_self cs h]

theorem plainChar_not_comma {c : Char} (h : plainChar c = true) :
    (c == ',') = false := by
  simp only [plainChar, Bool.and_eq_true, Bool.not_eq_true'] at h
  exact h.2

/-- Claim C7 (amended): a comma-separated name list with fewer entries than
callables raises no Invalid-Usage Error up front: each callable whose name
segment exists runs and is recorded normally, and only when a further callable
remains and no comma is left does execution reach the undefined null-pointer
arithmetic of `test_all` (modelled by the fatal marker `ub`), with the earlier
tests' records retained in the aggregator. -/
theorem name_mismatch_not_detected_upfront (s : TestSuite)
    (a b : List Char) (fn fn2 fn3 : TestCase)
    (ha : ∀ c ∈ a, plainChar c = true) (hb : ∀ c ∈ b, plainChar c = true)
    (hfn : okOrSignal fn = true) :
    test_all s (some (a ++ ',' :: b)) fn [fn2, fn3] =
      ((test_single s (String.mk a) fn).1, Except.error Exc.ub) ∧
    (test_single s (String.mk a) fn).1.total = s.total + 1 := by
  have hskip : detail.skip_whitespace_and_ampersand (some (a ++ ',' :: b)) =
      some (a ++ ',' :: b) := by
    apply skip_some_eq_self
    intro c hc
    cases a with
    | nil =>
      simp at hc
      subst hc
      decide
    | cons x xs =>
      simp at hc
      subst hc
      exact plainChar_not_skipped (ha x (by simp))
  have hchr : detail.strchr (a ++ ',' :: b) ',' = some a.length :=
    strchr_append_comma b a (fun x hx => plainChar_not_comma (ha x hx))
  have hskipb : detail.skip_whitespace_and_ampersand (some b) = some b := by
    apply skip_some_eq_self
    intro c hc
    cases b with
    | nil => simp at hc
    | cons y ys =>
      simp at hc
      subst hc
      exact plainChar_not_skipped (hb y (by simp))
  have hchrb : detail.strchr b ',' = none :=
    strchr_not_mem ',' b (fun x hx => plainChar_not_comma (hb x hx))
  cases fn with
  | ok u =>
    cases u
    constructor
    · simp only [test_all, hskip, hchr, hskipb, hchrb, take_append_comma,
        drop_append_comma, test_single]
    · simp [test_single, TestSuite.increment_total]
  | error e =>
    cases e with
    | testFailure m =>
      constructor
      · simp only [test_all, hskip, hchr, hskipb, hchrb, take_append_comma,
          drop_append_comma, test_single, Exc.isTestFailure]
        simp
      · simp [test_single, Exc.isTestFailure, TestSuite.increment_total,
          TestSuite.increment_failed, TestSuite.add_failed_test]
    | assertFailure m => simp [okOrSignal] at hfn
    | invalidArgument m => simp [okOrSignal] at hfn
    | stdException m => simp [okOrSignal] at hfn
    | unknownExc => simp [okOrSignal] at hfn
    | ub => simp [okOrSignal] at hfn

/-- Witness for C7 (amended) at a concrete input: names "a,b" with three
callables run the first test, record it, and stop at the fatal marker. -/
theorem name_mismatch_not_detected_upfront_witness :
    test_all freshSuite (some (['a'] ++ ',' :: ['b'])) (Except.ok ())
        [Except.ok (), Except.ok ()] =
      ((test_single freshSuite (String.mk ['a']) (Except.ok ())).1,
        Except.error Exc.ub) ∧
    (test_single freshSuite (String.mk ['a']) (Except.ok ())).1.total =
      freshSuite.total + 1 :=
  name_mismatch_not_detected_upfront freshSuite ['a'] ['b'] (Except.ok ())
    (Except.ok ()) (Except.ok ()) (by decide) (by decide) rfl

/-- Claim C7: counterexample — with the spec's own scenario of two names and
three callables, no Invalid-Usage Error is raised before any test executes:
the first test body runs and is recorded (the fresh aggregator's total becomes
1), and what stops the batch afterwards is the undefined null-pointer
arithmetic marker, not a raised `std::invalid_argument`. -/
theorem name_mismatch_cex :
    (test_all freshSuite (some ['a', ',', 'b']) (Except.ok ())
      [Except.ok (), Except.ok ()]).1.total = 1 ∧
    (test_all freshSuite (some ['a', ',', 'b']) (Except.ok ())
      [Except.ok (), Except.ok ()]).2 = Except.error Exc.ub ∧
    (test_all freshSuite (some ['a', ',', 'b']) (Except.ok ())
      [Except.ok (), Except.ok ()]).1.failed = 0 :=
  ⟨rfl, rfl, rfl⟩

/-- Claim C2: counterexample — the signal produced by the verification helper
`v` on a violated condition is `std::invalid_argument`, and the Runner does not
catch it: at this concrete input `test_single` returns the fresh aggregator
unchanged (failed stays 0, nothing recorded) and the signal propagates instead
of being converted into a recorded failure. -/
theorem verify_signal_not_caught_cex :
    v (1 : Int) 2 = Except.error (Exc.invalidArgument "Lhs != rhs") ∧
    test_single freshSuite "t"
        (Except.error (Exc.invalidArgument "Lhs != rhs")) =
      (freshSuite, Except.error (Exc.invalidArgument "Lhs != rhs")) ∧
    ((test_single freshSuite "t"
        (Except.error (Exc.invalidArgument "Lhs != rhs"))).1.failed == 1) =
      false := by
  refine ⟨?_, rfl, by decide⟩
  simp [v]

/-- Claim C2 (amended): the Runner catches the Failure Signal raised by the
assertion helpers — `TestFailure` — converting it into a recorded failure
(`increment_failed` and `add_failed_test`) and continuing with the next test in
the batch; but the signal the verification helpers `v`, `vn`, `operator&&` and
`operator^` produce on a violated condition is `std::invalid_argument`, which
the Runner does not catch: it propagates out of `test_single` with nothing
recorded. -/
theorem runner_records_TestFailure_but_not_verify_signal :
    (∀ (s : TestSuite) (n m : String),
      test_single s n (Except.error (Exc.testFailure m)) =
        (((s.increment_total).increment_failed).add_failed_test n,
          Except.ok false)) ∧
    (∀ (s : TestSuite) (n1 n2 m : String),
      runBatch s
          [(n1, Except.error (Exc.testFailure m)), (n2, Except.ok ())] =
        ((((s.increment_total).increment_failed).add_failed_test
            n1).increment_total, Except.ok ())) ∧
    (∀ (x y : Int), x ≠ y →
      v x y = Except.error (Exc.invalidArgument "Lhs != rhs")) ∧
    (∀ (x y : Int), x = y →
      vn x y = Except.error (Exc.invalidArgument "Lhs != rhs")) ∧
    (∀ (x : Int) (e : Verify Int), x ≠ e.val →
      opAnd x e = Except.error (Exc.invalidArgument "Lhs != rhs") ∧
      opAndRev e x = Except.error (Exc.invalidArgument "Lhs != rhs")) ∧
    (∀ (x : Int) (e : Verify Int), x = e.val →
      opXor e x = Except.error (Exc.invalidArgument "Lhs != rhs") ∧
      opXorRev x e = Except.error (Exc.invalidArgument "Lhs != rhs")) ∧
    (∀ (s : TestSuite) (n m : String),
      test_single s n (Except.error (Exc.invalidArgument m)) =
        (s, Except.error (Exc.invalidArgument m))) := by
  refine ⟨fun s n m => rfl, fun s n1 n2 m => rfl, ?_, ?_, ?_, ?_,
    fun s n m => rfl⟩
  · intro x y h; simp [v, h]
  · intro x y h; simp [vn, h]
  · intro x e h; exact ⟨by simp [opAnd, h], by simp [opAndRev, h]⟩
  · intro x e h; exact ⟨by simp [opXor, h], by simp [opXorRev, h]⟩

/-- Witness for C2 (amended) at concrete inputs: each verification helper
raises `std::invalid_argument` on a violated condition, the Runner records a
`TestFailure` body and keeps going, and the verify signal passes through. -/
theorem runner_records_TestFailure_but_not_verify_signal_witness :
    test_single freshSuite "t" (Except.error (Exc.testFailure "m")) =
      (((freshSuite.increment_total).increment_failed).add_failed_test "t",
        Except.ok false) ∧
    runBatch freshSuite
        [("t1", Except.error (Exc.testFailure "m")), ("t2", Except.ok ())] =
      ((((freshSuite.increment_total).increment_failed).add_failed_test
          "t1").increment_total, Except.ok ()) ∧
    v (5 : Int) 7 = Except.error (Exc.invalidArgument "Lhs != rhs") ∧
    vn (5 : Int) 5 = Except.error (Exc.invalidArgument "Lhs != rhs") ∧
    opAnd (5 : Int) ⟨7⟩ = Except.error (Exc.invalidArgument "Lhs != rhs") ∧
    opXor (⟨5⟩ : Verify Int) 5 =
      Except.error (Exc.invalidArgument "Lhs != rhs") ∧
    test_single freshSuite "t" (Except.error (Exc.invalidArgument "x")) =
      (freshSuite, Except.error (Exc.invalidArgument "x")) := by
  obtain ⟨h1, h2, h3, h4, h5, h6, h7⟩ :=
    runner_records_TestFailure_but_not_verify_signal
  exact ⟨h1 freshSuite "t" "m", h2 freshSuite "t1" "t2" "m",
    h3 5 7 (by decide), h4 5 5 rfl, (h5 5 ⟨7⟩ (by decide)).1,
    (h6 5 ⟨5⟩ rfl).1, h7 freshSuite "t" "x"⟩

theorem runBatch_counts (batch : List (String × TestCase)) :
    ∀ s : TestSuite, (∀ p ∈ batch, okOrSignal p.2 = true) →
      (runBatch s batch).2 = Except.ok () ∧
      (runBatch s batch).1.total = s.total + batch.length ∧
      (runBatch s batch).1.failed =
        s.failed + (batch.countP fun p => failsWithSignal p.2) ∧
      (runBatch s batch).1.failed_testnames =
        s.failed_testnames ++
          ((batch.filter fun p => failsWithSignal p.2).map Prod.fst) := by
  induction batch with
  | nil => intro s _; simp [runBatch]
  | cons p rest ih =>
    intro s h
    obtain ⟨n, fn⟩ := p
    have hp : okOrSignal fn = true := h (n, fn) (by simp)
    have hrest : ∀ q ∈ rest, okOrSignal q.2 = true :=
      fun q hq => h q (by simp [hq])
    cases fn with
    | ok u =>
      cases u
      obtain ⟨h1, h2, h3, h4⟩ := ih s.increment_total hrest
      have hrun : runBatch s ((n, (Except.ok () : TestCase)) :: rest) =
          runBatch s.increment_total rest := rfl
      rw [hrun]
      refine ⟨h1, ?_, ?_, ?_⟩
      · rw [h2]; simp [TestSuite.increment_total]; ring
      · rw [h3]
        simp [TestSuite.increment_total, List.countP_cons, failsWithSignal]
      · rw [h4]
        simp [TestSuite.increment_total, List.filter_cons, failsWithSignal]
    | error e =>
      cases e with
      | testFailure m =>
        obtain ⟨h1, h2, h3, h4⟩ :=
          ih (((s.increment_total).increment_failed).add_failed_test n) hrest
        have hrun : runBatch s
            ((n, (Except.error (Exc.testFailure m) : TestCase)) :: rest) =
            runBatch (((s.increment_total).increment_failed).add_failed_test n)
              rest := rfl
        rw [hrun]
        refine ⟨h1, ?_, ?_, ?_⟩
        · rw [h2]
          simp [TestSuite.increment_total, TestSuite.increment_failed,
            TestSuite.add_failed_test]
          ring
        · rw [h3]
          simp [TestSuite.increment_total, TestSuite.increment_failed,
            TestSuite.add_failed_test, List.countP_cons, failsWithSignal]
          ring
        · rw [h4]
          simp [TestSuite.increment_total, TestSuite.increment_failed,
            TestSuite.add_failed_test, List.filter_cons, failsWithSignal]
      | assertFailure m => simp [okOrSignal] at hp
      | invalidArgument m => simp [okOrSignal] at hp
      | stdException m => simp [okOrSignal] at hp
      | unknownExc => simp [okOrSignal] at hp
      | ub => simp [okOrSignal] at hp

/-- Claim C6: for a fresh aggregator and a batch of tests of which F raise the
Failure Signal: after the run `status()` equals F and the recorded failed-name
sequence has exactly the F failing names in execution order; after every prefix
of the batch `failed ≤ total` and `failed_testnames.length = failed` hold; and
the intermediate aggregator states inside a single recorded test also keep
`failed ≤ total`. -/
theorem aggregator_run_invariants (batch : List (String × TestCase))
    (h : ∀ p ∈ batch, okOrSignal p.2 = true) :
    (runBatch freshSuite batch).1.status =
      (batch.countP fun p => failsWithSignal p.2) ∧
    (runBatch freshSuite batch).1.failed_testnames =
      ((batch.filter fun p => failsWithSignal p.2).map Prod.fst) ∧
    (∀ pre suf : List (String × TestCase), batch = pre ++ suf →
      (runBatch freshSuite pre).1.failed ≤ (runBatch freshSuite pre).1.total ∧
      ((runBatch freshSuite pre).1.failed_testnames.length : Int) =
        (runBatch freshSuite pre).1.failed) ∧
    (∀ s : TestSuite, s.failed ≤ s.total →
      (s.increment_total).failed ≤ (s.increment_total).total ∧
      ((s.increment_total).increment_failed).failed ≤
        ((s.increment_total).increment_failed).total ∧
      (∀ n, (((s.increment_total).increment_failed).add_failed_test n).failed ≤
        (((s.increment_total).increment_failed).add_failed_test n).total)) := by
  obtain ⟨h1, h2, h3, h4⟩ := runBatch_counts batch freshSuite h
  refine ⟨?_, ?_, ?_, ?_⟩
  · rw [TestSuite.status, h3]; simp [freshSuite]
  · rw [h4]; simp [freshSuite]
  · intro pre suf hsplit
    have hpre : ∀ p ∈ pre, okOrSignal p.2 = true :=
      fun p hp => h p (by simp [hsplit, hp])
    obtain ⟨g1, g2, g3, g4⟩ := runBatch_counts pre freshSuite hpre
    constructor
    · rw [g2, g3]
      simp only [freshSuite]
      have := List.countP_le_length (l := pre)
        (p := fun p => failsWithSignal p.2)
      omega
    · rw [g3, g4]
      simp [freshSuite, List.countP_eq_length_filter]
  · intro s hs
    refine ⟨?_, ?_, fun n => ?_⟩ <;>
      simp [TestSuite.increment_total, TestSuite.increment_failed,
        TestSuite.add_failed_test] <;> omega

/-- Witness for C6 at a concrete input: the spec's own scenario — a passing
test then a failing test against a fresh aggregator — yields status 1 and the
failed-name sequence ["t2"]. -/
theorem aggregator_run_invariants_witness :
    (runBatch freshSuite
      [("t1", Except.ok ()),
       ("t2", Except.error (Exc.testFailure "m"))]).1.status = 1 ∧
    (runBatch freshSuite
      [("t1", Except.ok ()),
       ("t2", Except.error (Exc.testFailure "m"))]).1.failed_testnames =
      ["t2"] := by
  have h := aggregator_run_invariants
    [("t1", Except.ok ()), ("t2", Except.error (Exc.testFailure "m"))]
    (by decide)
  refine ⟨h.1.trans ?_, (h.2.1).trans ?_⟩ <;> decide

/-- Witness for C4 (amended) at a concrete input: the wrapped signal and its
longer message, computed for arguments "1, " and original message "x". -/
theorem assert_nothrow_rewraps_failure_signal_witness :
    assert_nothrow (β := Unit) "1, "
        (Except.error (Exc.assertFailure "x")) =
      Except.error (Exc.assertFailure (wrapStdMsg "1, " "x")) ∧
    (wrapStdMsg "1, " "x").length =
      "x".length + "1, ".length +
        "ASSERT: Unexpected std::exception thrown with arguments ".length +
        ". what(): ".length :=
  assert_nothrow_rewraps_failure_signal "1, " "x"
